import Mathlib

/-!
# psync-simple: the scenario driver of `src/scenarios/psync-simple.cpp`

A shallow embedding of the driver: the six process-wide parameters, the
function `parse_arguments` (command-line overrides, normalisation, summary)
and `ns3::main` (topology, application bindings, stop events), followed by
the theorems that settle the claims C1..C10.

Conventions.
* `uint32_t`, `uint64_t` and `int` are `ℕ`/`ℤ` reduced into their range by
  `toUInt32`, `toUInt64`, `toInt32`.
* A finite `double` is the rational it denotes.  The driver's two
  subtractions and its `int → double` conversions go through
  `roundBinary64`, round-to-nearest-even onto the binary64 grid.
* The ns-3 / ndnSIM objects the driver talks to (`CommandLine`,
  `NodeContainer`, `PointToPointHelper`, `ndn::AppHelper`,
  `ApplicationContainer`, `Simulator`) are represented by what the driver
  hands to them: a record of nodes, links, applications and stop events.
-/

namespace PSyncSimple

/-! ## Machine numbers -/

/-- Reduction of a natural number into the range of `uint32_t`. -/
def toUInt32 (n : ℕ) : ℕ := n % 2 ^ 32

/-- Reduction of a natural number into the range of `uint64_t`. -/
def toUInt64 (n : ℕ) : ℕ := n % 2 ^ 64

/-- Reduction of an integer into the range of a 32-bit two's complement `int`. -/
def toInt32 (i : ℤ) : ℤ := (i + 2 ^ 31) % 2 ^ 32 - 2 ^ 31

/-- The value of `std::numeric_limits<uint32_t>::max()`. -/
def uint32Max : ℕ := 2 ^ 32 - 1

/-- Nearest integer to a rational, ties going to the even neighbour. -/
def roundHalfEven (x : ℚ) : ℤ :=
  let f : ℤ := ⌊x⌋
  let r : ℚ := x - f
  if r < 1 / 2 then f
  else if 1 / 2 < r then f + 1
  else if f % 2 = 0 then f
  else f + 1

/-- Round-to-nearest-even of a rational onto the binary64 grid: 53 significant
bits, least exponent `-1022` (below it the spacing stays that of the
subnormals).  Overflow to infinity is not represented; the driver only
rounds numbers of magnitude at most `2 ^ 31 + 5`. -/
def roundBinary64 (q : ℚ) : ℚ :=
  if q = 0 then 0
  else
    let e : ℤ := max (Int.log 2 |q|) (-1022)
    let ulp : ℚ := (2 : ℚ) ^ (e - 52)
    (roundHalfEven (q / ulp) : ℚ) * ulp

/-- The implicit conversion `int → double`. -/
def intToDouble (i : ℤ) : ℚ := roundBinary64 (i : ℚ)

/-- The binary64 subtraction `a - b`. -/
def doubleSub (a b : ℚ) : ℚ := roundBinary64 (a - b)

/-! ## The process-wide parameters (source lines 50-58) -/

/-- The six global variables of the driver. -/
structure Globals where
  /-- Source: `uint32_t g_numberOfSubscribeMessages`. -/
  g_numberOfSubscribeMessages : ℕ
  /-- Source: `uint64_t g_numberOfPublishMessages`. -/
  g_numberOfPublishMessages : ℕ
  /-- Source: `uint32_t g_numberOfDataStream`. -/
  g_numberOfDataStream : ℕ
  /-- Source: `int g_simulationTime`. -/
  g_simulationTime : ℤ
  /-- Source: `double g_nPStart`. -/
  g_nPStart : ℚ
  /-- Source: `double g_nCStart`. -/
  g_nCStart : ℚ
  deriving DecidableEq, Repr

/-- The static initialisers of lines 50-58. -/
def Globals.atStart : Globals where
  g_numberOfSubscribeMessages := toUInt32 100
  g_numberOfPublishMessages := toUInt64 uint32Max
  g_numberOfDataStream := toUInt32 200
  g_simulationTime := toInt32 300
  g_nPStart := 5
  g_nCStart := 8

/-- Each integer variable holds a value of its declared type. -/
def Globals.InRange (g : Globals) : Prop :=
  g.g_numberOfSubscribeMessages < 2 ^ 32 ∧ g.g_numberOfPublishMessages < 2 ^ 64 ∧
    g.g_numberOfDataStream < 2 ^ 32 ∧ -2 ^ 31 ≤ g.g_simulationTime ∧ g.g_simulationTime < 2 ^ 31

/-! ## Command-line overrides (source lines 62-69) -/

/-- One recognised command-line override, already read as a number by the
external `CommandLine` parser.  Each constructor is one `cmd.AddValue` line:
the flag name and the variable it is bound to. -/
inductive Override where
  /-- Flag `--sm`, bound to `g_numberOfSubscribeMessages`. -/
  | sm (v : ℕ)
  /-- Flag `--pm`, bound to `g_numberOfPublishMessages`. -/
  | pm (v : ℕ)
  /-- Flag `--ds`, bound to `g_numberOfDataStream`. -/
  | ds (v : ℕ)
  /-- Flag `--duration`, bound to `g_simulationTime`. -/
  | duration (v : ℤ)
  /-- Flag `--c_start`, bound to `g_nCStart`. -/
  | c_start (v : ℚ)
  /-- Flag `--p_start`, bound to `g_nPStart`. -/
  | p_start (v : ℚ)
  deriving DecidableEq, Repr

/-- Storing one override into the variable its flag was registered with; the
value is brought into the declared type of that variable. -/
def Override.store : Override → Globals → Globals
  | .sm v, g => { g with g_numberOfSubscribeMessages := toUInt32 v }
  | .pm v, g => { g with g_numberOfPublishMessages := toUInt64 v }
  | .ds v, g => { g with g_numberOfDataStream := toUInt32 v }
  | .duration v, g => { g with g_simulationTime := toInt32 v }
  | .c_start v, g => { g with g_nCStart := roundBinary64 v }
  | .p_start v, g => { g with g_nPStart := roundBinary64 v }

/-- The call `cmd.Parse(argc, argv)`: the overrides are stored left to right. -/
def CommandLine.Parse (args : List Override) (g : Globals) : Globals :=
  args.foldl (fun acc o => o.store acc) g

/-! ## The summary (source lines 75-81) -/

/-- A value inserted into the log stream, tagged with its C++ type family. -/
inductive Shown where
  | uint (n : ℕ)
  | int (i : ℤ)
  | double (q : ℚ)
  deriving DecidableEq, Repr

/-- One `NS_LOG_UNCOND` line: the literal text and the value streamed after it. -/
structure LogLine where
  text : String
  shown : Option Shown
  deriving DecidableEq, Repr

/-- What `parse_arguments` leaves behind: its return value, the globals and
the lines it logged. -/
structure ParseResult where
  retval : ℤ
  globals : Globals
  log : List LogLine
  deriving DecidableEq, Repr

/-- The normalisation of lines 71-73. -/
def normalize (g : Globals) : Globals :=
  if g.g_numberOfDataStream < g.g_numberOfSubscribeMessages then
    { g with g_numberOfSubscribeMessages := g.g_numberOfDataStream }
  else g

/-- The six summary lines and their header, lines 75-81, in source order. -/
def summary (g : Globals) : List LogLine :=
  [ ⟨"program arguments:", none⟩,
    ⟨"--sm            : ", some (.uint g.g_numberOfSubscribeMessages)⟩,
    ⟨"--pm            : ", some (.uint g.g_numberOfPublishMessages)⟩,
    ⟨"--ds            : ", some (.uint g.g_numberOfDataStream)⟩,
    ⟨"--duration      : ", some (.int g.g_simulationTime)⟩,
    ⟨"--c_start       : ", some (.double g.g_nPStart)⟩,
    ⟨"--p_start       : ", some (.double g.g_nCStart)⟩ ]

/-- Source: `int parse_arguments(int argc, char *argv[])`, lines 60-84. -/
def parse_arguments (args : List Override) (g : Globals) : ParseResult :=
  let g1 := CommandLine.Parse args g
  let g2 := normalize g1
  { retval := 0, globals := g2, log := summary g2 }

/-! ## The simulator objects the driver configures -/

/-- Simulated time, in seconds. -/
abbrev Time := ℚ

/-- The ns-3 constructor `Seconds(double)`. -/
def Seconds (value : ℚ) : Time := value

/-- The attribute values the driver builds. -/
inductive AttributeValue where
  | uinteger (v : ℕ)
  | string (s : String)
  deriving DecidableEq, Repr

/-- The ns-3 constructor `UintegerValue(uint64_t)`. -/
def UintegerValue (v : ℕ) : AttributeValue := .uinteger (toUInt64 v)

/-- The ns-3 constructor `StringValue(std::string)`. -/
def StringValue (s : String) : AttributeValue := .string s

/-- An installed application: its type, the id of the node it sits on, the
attributes it was created with and the start and stop times assigned to it. -/
structure Application where
  typeName : String
  node : ℕ
  attributes : List (String × AttributeValue)
  startTime : Option Time
  stopTime : Option Time
  deriving DecidableEq, Repr

/-- What the simulator holds at one moment of the run. -/
structure Setup where
  /-- Number of nodes created. -/
  nodes : ℕ
  /-- Point-to-point links, as pairs of node ids, in creation order. -/
  links : List (ℕ × ℕ)
  /-- Nodes carrying the NDN stack, each with the default-routes setting used. -/
  stackNodes : List (ℕ × Bool)
  /-- Forwarding strategy choices: node id, name, strategy. -/
  strategies : List (ℕ × String × String)
  /-- Installed applications, with the start and stop times given so far. -/
  applications : List Application
  /-- Times at which a global stop event is registered. -/
  stopEvents : List Time
  /-- Whether `Simulator::Destroy` was called. -/
  destroyed : Bool
  deriving DecidableEq, Repr

/-- Everything the driver has handed to the simulator so far. -/
structure Simulation where
  /-- Process-wide defaults set with `Config::SetDefault`. -/
  defaults : List (String × AttributeValue)
  /-- Number of nodes created; their ids are `0, 1, ..`. -/
  nodes : ℕ
  /-- Point-to-point links, as pairs of node ids, in creation order. -/
  links : List (ℕ × ℕ)
  /-- Nodes carrying the NDN stack, each with the default-routes setting used. -/
  stackNodes : List (ℕ × Bool)
  /-- Forwarding strategy choices: node id, name, strategy. -/
  strategies : List (ℕ × String × String)
  /-- Installed applications, in installation order. -/
  applications : List Application
  /-- Times at which a global stop event is registered. -/
  stopEvents : List Time
  /-- One entry for each call of `Simulator::Run`, in call order: what the
  simulator held at the moment of the call. -/
  runs : List Setup
  /-- Whether `Simulator::Destroy` was called. -/
  destroyed : Bool
  deriving DecidableEq, Repr

/-- The simulator before the driver touches it. -/
def Simulation.fresh : Simulation where
  defaults := []
  nodes := 0
  links := []
  stackNodes := []
  strategies := []
  applications := []
  stopEvents := []
  runs := []
  destroyed := false

/-- What the simulator holds now. -/
def Simulation.held (sim : Simulation) : Setup where
  nodes := sim.nodes
  links := sim.links
  stackNodes := sim.stackNodes
  strategies := sim.strategies
  applications := sim.applications
  stopEvents := sim.stopEvents
  destroyed := sim.destroyed

/-- Replace or add the entry `name` in an attribute list. -/
def setEntry (name : String) (v : AttributeValue) (l : List (String × AttributeValue)) :
    List (String × AttributeValue) :=
  l.filter (fun e => e.1 ≠ name) ++ [(name, v)]

/-- The call `Config::SetDefault(name, value)`. -/
def Config.SetDefault (name : String) (v : AttributeValue) (sim : Simulation) : Simulation :=
  { sim with defaults := setEntry name v sim.defaults }

/-- An ns-3 `NodeContainer`: the ids of the nodes it holds. -/
structure NodeContainer where
  ids : List ℕ
  deriving DecidableEq, Repr

/-- The call `nodes.Create(n)`: `n` new nodes with the next free ids. -/
def NodeContainer.Create (c : NodeContainer) (n : ℕ) (sim : Simulation) :
    NodeContainer × Simulation :=
  (⟨c.ids ++ List.range' sim.nodes n⟩, { sim with nodes := sim.nodes + n })

/-- The call `nodes.Get(i)`; there is no node at an index past the end. -/
def NodeContainer.Get (c : NodeContainer) (i : ℕ) : Option ℕ := c.ids[i]?

/-- The call `p2p.Install(a, b)`: one link between the two nodes. -/
def PointToPointHelper.Install (a b : ℕ) (sim : Simulation) : Simulation :=
  { sim with links := sim.links ++ [(a, b)] }

/-- An `ndn::StackHelper`, reduced to its default-routes switch. -/
structure StackHelper where
  defaultRoutes : Bool
  deriving DecidableEq, Repr

/-- The call `ndnHelper.SetDefaultRoutes(b)`. -/
def StackHelper.SetDefaultRoutes (_h : StackHelper) (b : Bool) : StackHelper := ⟨b⟩

/-- The call `ndnHelper.InstallAll()`: the stack goes on every existing node. -/
def StackHelper.InstallAll (h : StackHelper) (sim : Simulation) : Simulation :=
  { sim with stackNodes := sim.stackNodes ++ (List.range sim.nodes).map (fun n => (n, h.defaultRoutes)) }

/-- The call `ndn::StrategyChoiceHelper::InstallAll(name, strategy)`. -/
def StrategyChoiceHelper.InstallAll (name strategy : String) (sim : Simulation) : Simulation :=
  { sim with
    strategies := sim.strategies ++ (List.range sim.nodes).map (fun n => (n, name, strategy)) }

/-- An `ndn::AppHelper`: the application type and the attributes set so far. -/
structure AppHelper where
  typeName : String
  attributes : List (String × AttributeValue)
  deriving DecidableEq, Repr

/-- The constructor `ndn::AppHelper(typeName)`. -/
def AppHelper.create (typeName : String) : AppHelper := ⟨typeName, []⟩

/-- The call `helper.SetAttribute(name, value)`. -/
def AppHelper.SetAttribute (h : AppHelper) (name : String) (v : AttributeValue) : AppHelper :=
  { h with attributes := setEntry name v h.attributes }

/-- The call `helper.SetPrefix(p)`, which sets the attribute `Prefix`. -/
def AppHelper.SetPrefix (h : AppHelper) (p : String) : AppHelper :=
  h.SetAttribute "Prefix" (StringValue p)

/-- An ns-3 `ApplicationContainer`: positions in the list of installed applications. -/
structure ApplicationContainer where
  members : List ℕ
  deriving DecidableEq, Repr

/-- The call `helper.Install(node)`: one application of the helper's type, with
the helper's attributes, on that node. -/
def AppHelper.Install (h : AppHelper) (node : ℕ) (sim : Simulation) :
    ApplicationContainer × Simulation :=
  (⟨[sim.applications.length]⟩,
   { sim with
     applications := sim.applications ++ [⟨h.typeName, node, h.attributes, none, none⟩] })

/-- The call `apps.Start(t)`: every member gets start time `t`. -/
def ApplicationContainer.Start (c : ApplicationContainer) (t : Time) (sim : Simulation) :
    Simulation :=
  { sim with
    applications := sim.applications.enum.map
      (fun ia => if ia.1 ∈ c.members then { ia.2 with startTime := some t } else ia.2) }

/-- The call `apps.Stop(t)`: every member gets stop time `t`. -/
def ApplicationContainer.Stop (c : ApplicationContainer) (t : Time) (sim : Simulation) :
    Simulation :=
  { sim with
    applications := sim.applications.enum.map
      (fun ia => if ia.1 ∈ c.members then { ia.2 with stopTime := some t } else ia.2) }

/-- The call `Simulator::Stop(delay)`.  The driver makes it before `Run`, at
simulated time zero, so the stop event sits at `delay`. -/
def Simulator.Stop (delay : Time) (sim : Simulation) : Simulation :=
  { sim with stopEvents := sim.stopEvents ++ [delay] }

/-- The call `Simulator::Run()`.  The event loop belongs to the engine; the
call is recorded together with what the engine is started on. -/
def Simulator.Run (sim : Simulation) : Simulation :=
  { sim with runs := sim.runs ++ [sim.held] }

/-- The call `Simulator::Destroy()`. -/
def Simulator.Destroy (sim : Simulation) : Simulation := { sim with destroyed := true }

/-! ## The driver (source lines 86-152) -/

/-- What a run of `main` leaves behind: the exit status, the globals, the log
and the simulator record. -/
structure MainResult where
  retval : ℤ
  globals : Globals
  log : List LogLine
  sim : Simulation
  deriving DecidableEq, Repr

/-- Source: `ns3::main`, lines 86-152, with the argument parser it calls on
line 97 as a parameter.  The result is `none` when a `nodes.Get` has no node
to return. -/
def mainWith (parse : List Override → Globals → ParseResult) (args : List Override) :
    Option MainResult :=
  let sim := Simulation.fresh
  let sim := Config.SetDefault "ns3::PointToPointNetDevice::DataRate" (StringValue "1Mbps") sim
  let sim := Config.SetDefault "ns3::PointToPointChannel::Delay" (StringValue "10ms") sim
  let sim := Config.SetDefault "ns3::QueueBase::MaxSize" (StringValue "20p") sim
  let parsed := parse args Globals.atStart
  let retval := parsed.retval
  let g := parsed.globals
  if retval ≠ 0 then
    some ⟨retval, g, parsed.log, sim⟩
  else do
    let (nodes, sim) := NodeContainer.Create ⟨[]⟩ 3 sim
    let sim := PointToPointHelper.Install (← nodes.Get 0) (← nodes.Get 1) sim
    let sim := PointToPointHelper.Install (← nodes.Get 1) (← nodes.Get 2) sim
    let ndnHelper : StackHelper := ⟨false⟩
    let ndnHelper := ndnHelper.SetDefaultRoutes true
    let sim := ndnHelper.InstallAll sim
    let syncPrefix := "/prefix"
    let userPrefix := "topic"
    let sim := StrategyChoiceHelper.InstallAll syncPrefix "/localhost/nfd/strategy/best-route" sim
    let consumerHelper := AppHelper.create "PSyncConsumerApp"
    let consumerHelper := consumerHelper.SetPrefix syncPrefix
    let consumerHelper := consumerHelper.SetAttribute "NumSubscribeMessage"
      (UintegerValue g.g_numberOfSubscribeMessages)
    let (c_apps, sim) := consumerHelper.Install (← nodes.Get 0) sim
    let sim := c_apps.Start (Seconds g.g_nCStart) sim
    let sim := c_apps.Stop (Seconds (doubleSub (intToDouble g.g_simulationTime) 1)) sim
    let producerHelper := AppHelper.create "PSyncProducerApp"
    let producerHelper := producerHelper.SetPrefix syncPrefix
    let producerHelper := producerHelper.SetAttribute "UserPrefix" (StringValue userPrefix)
    let producerHelper := producerHelper.SetAttribute "MaxPublishMessage"
      (UintegerValue g.g_numberOfPublishMessages)
    let producerHelper := producerHelper.SetAttribute "TotalDataStream"
      (UintegerValue g.g_numberOfDataStream)
    let (p_apps, sim) := producerHelper.Install (← nodes.Get 2) sim
    let sim := p_apps.Start (Seconds g.g_nPStart) sim
    let sim := p_apps.Stop (Seconds (doubleSub (intToDouble g.g_simulationTime) 5)) sim
    let sim := Simulator.Stop (Seconds (intToDouble g.g_simulationTime)) sim
    let sim := Simulator.Run sim
    let sim := Simulator.Destroy sim
    return ⟨0, g, parsed.log, sim⟩

/-- Source: `ns3::main` as it stands, calling `parse_arguments` on line 97. -/
def main (args : List Override) : Option MainResult := mainWith parse_arguments args

/-- The simulator record `main` has arrived at on line 147, just before
`Simulator::Run`, when parsing left the globals `g`. -/
def scheduledFrom (g : Globals) : Simulation where
  defaults :=
    [ ("ns3::PointToPointNetDevice::DataRate", .string "1Mbps"),
      ("ns3::PointToPointChannel::Delay", .string "10ms"),
      ("ns3::QueueBase::MaxSize", .string "20p") ]
  nodes := 3
  links := [(0, 1), (1, 2)]
  stackNodes := [(0, true), (1, true), (2, true)]
  strategies :=
    [ (0, "/prefix", "/localhost/nfd/strategy/best-route"),
      (1, "/prefix", "/localhost/nfd/strategy/best-route"),
      (2, "/prefix", "/localhost/nfd/strategy/best-route") ]
  applications :=
    [ { typeName := "PSyncConsumerApp"
        node := 0
        attributes :=
          [ ("Prefix", .string "/prefix"),
            ("NumSubscribeMessage", .uinteger (toUInt64 g.g_numberOfSubscribeMessages)) ]
        startTime := some g.g_nCStart
        stopTime := some (doubleSub (intToDouble g.g_simulationTime) 1) },
      { typeName := "PSyncProducerApp"
        node := 2
        attributes :=
          [ ("Prefix", .string "/prefix"),
            ("UserPrefix", .string "topic"),
            ("MaxPublishMessage", .uinteger (toUInt64 g.g_numberOfPublishMessages)),
            ("TotalDataStream", .uinteger (toUInt64 g.g_numberOfDataStream)) ]
        startTime := some g.g_nPStart
        stopTime := some (doubleSub (intToDouble g.g_simulationTime) 5) } ]
  stopEvents := [intToDouble g.g_simulationTime]
  runs := []
  destroyed := false

/-- The simulator record `main` ends with when parsing left the globals `g`:
the engine was started once, on `scheduledFrom g`, and then destroyed. -/
def builtFrom (g : Globals) : Simulation :=
  { scheduledFrom g with runs := [(scheduledFrom g).held], destroyed := true }

/-! ## Auxiliary facts -/

theorem mainWith_of_retval_zero (parse : List Override → Globals → ParseResult)
    (args : List Override) (h : (parse args Globals.atStart).retval = 0) :
    mainWith parse args =
      some ⟨0, (parse args Globals.atStart).globals, (parse args Globals.atStart).log,
        builtFrom (parse args Globals.atStart).globals⟩ := by
  simp only [mainWith, h]
  rfl

theorem roundHalfEven_intCast (k : ℤ) : roundHalfEven (k : ℚ) = k := by
  simp [roundHalfEven]

/-- Every integer of magnitude below `2 ^ 53` is a binary64 number. -/
theorem roundBinary64_intCast (n : ℤ) (h : |n| < 2 ^ 53) : roundBinary64 (n : ℚ) = n := by
  unfold roundBinary64
  by_cases h0 : (n : ℚ) = 0
  · simp [h0]
  · rw [if_neg h0]
    have hn : n ≠ 0 := by exact_mod_cast h0
    have hlog : Int.log 2 |(n : ℚ)| = (Nat.log 2 n.natAbs : ℤ) := by
      rw [← Int.cast_abs, ← Nat.cast_natAbs, Int.log_natCast]
    have hlt : Nat.log 2 n.natAbs < 53 := by
      apply Nat.log_lt_of_lt_pow (Int.natAbs_ne_zero.mpr hn)
      zify
      simpa using h
    obtain ⟨k, hk⟩ : ∃ k : ℕ, Nat.log 2 n.natAbs + k = 52 := ⟨52 - Nat.log 2 n.natAbs, by omega⟩
    have hmax : max (Nat.log 2 n.natAbs : ℤ) (-1022) = Nat.log 2 n.natAbs := by omega
    have hulp : (2 : ℚ) ^ ((Nat.log 2 n.natAbs : ℤ) - 52) = ((2 : ℚ) ^ k)⁻¹ := by
      have hk2 : (Nat.log 2 n.natAbs : ℤ) - 52 = -(k : ℤ) := by omega
      rw [hk2, zpow_neg, zpow_natCast]
    have hquot : (n : ℚ) / ((2 : ℚ) ^ k)⁻¹ = ((n * 2 ^ k : ℤ) : ℚ) := by
      push_cast
      field_simp
    simp only [hlog, hmax, hulp, hquot, roundHalfEven_intCast]
    push_cast
    field_simp

theorem intToDouble_exact (d : ℤ) (hlo : -2 ^ 31 ≤ d) (hhi : d < 2 ^ 31) :
    intToDouble d = (d : ℚ) := by
  apply roundBinary64_intCast
  rw [abs_lt]
  constructor <;> omega

/-- On the `int` range, `d - c` in binary64 is the mathematical difference for
every whole constant `c` of magnitude at most `5`. -/
theorem doubleSub_exact (d c : ℤ) (hlo : -2 ^ 31 ≤ d) (hhi : d < 2 ^ 31) (hc : |c| ≤ 5) :
    doubleSub (intToDouble d) (c : ℚ) = (d : ℚ) - (c : ℚ) := by
  rw [intToDouble_exact d hlo hhi, doubleSub]
  have hcast : (d : ℚ) - (c : ℚ) = ((d - c : ℤ) : ℚ) := by push_cast; ring
  rw [hcast]
  apply roundBinary64_intCast
  rw [abs_le] at hc
  rw [abs_lt]
  constructor <;> omega

theorem toUInt32_lt (n : ℕ) : toUInt32 n < 2 ^ 32 := Nat.mod_lt _ (by norm_num)

theorem toUInt64_lt (n : ℕ) : toUInt64 n < 2 ^ 64 := Nat.mod_lt _ (by norm_num)

theorem toInt32_range (i : ℤ) : -2 ^ 31 ≤ toInt32 i ∧ toInt32 i < 2 ^ 31 := by
  unfold toInt32
  constructor <;> omega

theorem toInt32_of_range (i : ℤ) (hlo : -2 ^ 31 ≤ i) (hhi : i < 2 ^ 31) : toInt32 i = i := by
  unfold toInt32
  omega

theorem atStart_inRange : Globals.atStart.InRange := by
  simp [Globals.InRange, Globals.atStart, toUInt32, toUInt64, toInt32, uint32Max]

theorem store_inRange (o : Override) (g : Globals) (h : g.InRange) : (o.store g).InRange := by
  obtain ⟨h1, h2, h3, h4, h5⟩ := h
  cases o <;> simp only [Override.store, Globals.InRange]
  · exact ⟨toUInt32_lt _, h2, h3, h4, h5⟩
  · exact ⟨h1, toUInt64_lt _, h3, h4, h5⟩
  · exact ⟨h1, h2, toUInt32_lt _, h4, h5⟩
  · exact ⟨h1, h2, h3, (toInt32_range _).1, (toInt32_range _).2⟩
  · exact ⟨h1, h2, h3, h4, h5⟩
  · exact ⟨h1, h2, h3, h4, h5⟩

theorem Parse_inRange (args : List Override) (g : Globals) (h : g.InRange) :
    (CommandLine.Parse args g).InRange := by
  unfold CommandLine.Parse
  induction args generalizing g with
  | nil => exact h
  | cons o rest ih => exact ih (o.store g) (store_inRange o g h)

theorem normalize_inRange (g : Globals) (h : g.InRange) : (normalize g).InRange := by
  obtain ⟨h1, h2, h3, h4, h5⟩ := h
  unfold normalize
  split
  · exact ⟨h3, h2, h3, h4, h5⟩
  · exact ⟨h1, h2, h3, h4, h5⟩

theorem parse_arguments_inRange (args : List Override) :
    (parse_arguments args Globals.atStart).globals.InRange :=
  normalize_inRange _ (Parse_inRange args _ atStart_inRange)

theorem normalize_le (g : Globals) :
    (normalize g).g_numberOfSubscribeMessages ≤ (normalize g).g_numberOfDataStream := by
  unfold normalize
  split
  · exact le_rfl
  · omega

theorem toUInt64_of_lt (n : ℕ) (h : n < 2 ^ 64) : toUInt64 n = n := Nat.mod_eq_of_lt h

/-- The simulator record of `builtFrom` with every number written as the
mathematical value it has when the globals are in range. -/
theorem builtFrom_applications (g : Globals) (h : g.InRange) :
    (builtFrom g).applications =
      [ { typeName := "PSyncConsumerApp"
          node := 0
          attributes :=
            [ ("Prefix", .string "/prefix"),
              ("NumSubscribeMessage", .uinteger g.g_numberOfSubscribeMessages) ]
          startTime := some g.g_nCStart
          stopTime := some ((g.g_simulationTime : ℚ) - 1) },
        { typeName := "PSyncProducerApp"
          node := 2
          attributes :=
            [ ("Prefix", .string "/prefix"),
              ("UserPrefix", .string "topic"),
              ("MaxPublishMessage", .uinteger g.g_numberOfPublishMessages),
              ("TotalDataStream", .uinteger g.g_numberOfDataStream) ]
          startTime := some g.g_nPStart
          stopTime := some ((g.g_simulationTime : ℚ) - 5) } ] := by
  obtain ⟨h1, h2, h3, h4, h5⟩ := h
  have e1 := doubleSub_exact g.g_simulationTime 1 h4 h5 (by norm_num)
  have e5 := doubleSub_exact g.g_simulationTime 5 h4 h5 (by norm_num)
  simp only [Int.cast_one, Int.cast_ofNat] at e1 e5
  simp only [builtFrom, scheduledFrom, e1, e5, toUInt64_of_lt _ h2,
    toUInt64_of_lt _ (lt_trans h1 (by norm_num)), toUInt64_of_lt _ (lt_trans h3 (by norm_num))]

theorem builtFrom_stopEvents (g : Globals) (h : g.InRange) :
    (builtFrom g).stopEvents = [(g.g_simulationTime : ℚ)] := by
  obtain ⟨_, _, _, h4, h5⟩ := h
  simp only [builtFrom, scheduledFrom, intToDouble_exact _ h4 h5]

/-- The engine is started once, on the finished set-up: `Run` comes after
every node, link, application, start, stop and stop-event call and before
`Destroy`. -/
theorem builtFrom_runs (g : Globals) :
    (builtFrom g).runs =
      [ { nodes := (builtFrom g).nodes
          links := (builtFrom g).links
          stackNodes := (builtFrom g).stackNodes
          strategies := (builtFrom g).strategies
          applications := (builtFrom g).applications
          stopEvents := (builtFrom g).stopEvents
          destroyed := false } ] :=
  rfl

/-- The run of `main` never misses a node, returns `0`, and leaves the record
`builtFrom` of the parsed globals. -/
theorem main_eq (args : List Override) :
    main args =
      some ⟨0, (parse_arguments args Globals.atStart).globals,
        (parse_arguments args Globals.atStart).log,
        builtFrom (parse_arguments args Globals.atStart).globals⟩ :=
  mainWith_of_retval_zero parse_arguments args rfl

theorem Parse_append (xs ys : List Override) (g : Globals) :
    CommandLine.Parse (xs ++ ys) g = CommandLine.Parse ys (CommandLine.Parse xs g) := by
  simp [CommandLine.Parse, List.foldl_append]

theorem normalize_simulationTime (g : Globals) :
    (normalize g).g_simulationTime = g.g_simulationTime := by
  unfold normalize
  split <;> rfl

theorem normalize_nPStart (g : Globals) : (normalize g).g_nPStart = g.g_nPStart := by
  unfold normalize
  split <;> rfl

/-! ## The claims -/

/-- C1: whatever values command-line parsing leaves, the normalisation inside
`parse_arguments` stores `dataStreamCount` into `subscribeCount` when
`dataStreamCount < subscribeCount` and leaves `subscribeCount` as it is
otherwise; the stored value is the minimum of the two. -/
theorem C1_normalization_stores_min (args : List Override) (g : Globals) :
    ((CommandLine.Parse args g).g_numberOfDataStream
          < (CommandLine.Parse args g).g_numberOfSubscribeMessages →
        (parse_arguments args g).globals.g_numberOfSubscribeMessages
          = (CommandLine.Parse args g).g_numberOfDataStream) ∧
    ((CommandLine.Parse args g).g_numberOfSubscribeMessages
          ≤ (CommandLine.Parse args g).g_numberOfDataStream →
        (parse_arguments args g).globals.g_numberOfSubscribeMessages
          = (CommandLine.Parse args g).g_numberOfSubscribeMessages) ∧
    (parse_arguments args g).globals.g_numberOfSubscribeMessages
      = min (CommandLine.Parse args g).g_numberOfSubscribeMessages
          (CommandLine.Parse args g).g_numberOfDataStream := by
  simp only [parse_arguments, normalize]
  refine ⟨fun h => ?_, fun h => ?_, ?_⟩
  · rw [if_pos h]
  · rw [if_neg (not_lt.mpr h)]
  · split
    · rename_i h
      exact (min_eq_right (le_of_lt h)).symm
    · rename_i h
      exact (min_eq_left (not_lt.mp h)).symm

/-- C1, at concrete inputs: with `--sm 500 --ds 7` the stored count is `7`,
with `--sm 7 --ds 500` it stays `7`. -/
theorem C1_normalization_stores_min_witness :
    (parse_arguments [.sm 500, .ds 7] Globals.atStart).globals.g_numberOfSubscribeMessages = 7 ∧
    (parse_arguments [.sm 7, .ds 500] Globals.atStart).globals.g_numberOfSubscribeMessages = 7 :=
  ⟨(C1_normalization_stores_min [.sm 500, .ds 7] Globals.atStart).1 (by decide),
   (C1_normalization_stores_min [.sm 7, .ds 500] Globals.atStart).2.1 (by decide)⟩

/-- C2: after `parse_arguments` the globals satisfy `subscribeCount ≤
dataStreamCount`; `dataStreamCount`, `maxPublishCount`, the duration and both
start offsets are what override parsing left; and in the run of `main` the
`NumSubscribeMessage` attribute of the consumer is at most the
`TotalDataStream` attribute of the producer. -/
theorem C2_subscribe_le_dataStream (args : List Override) (g : Globals) :
    ((parse_arguments args g).globals.g_numberOfSubscribeMessages
        ≤ (parse_arguments args g).globals.g_numberOfDataStream ∧
      (parse_arguments args g).globals.g_numberOfDataStream
        = (CommandLine.Parse args g).g_numberOfDataStream ∧
      (parse_arguments args g).globals.g_numberOfPublishMessages
        = (CommandLine.Parse args g).g_numberOfPublishMessages ∧
      (parse_arguments args g).globals.g_simulationTime
        = (CommandLine.Parse args g).g_simulationTime ∧
      (parse_arguments args g).globals.g_nPStart = (CommandLine.Parse args g).g_nPStart ∧
      (parse_arguments args g).globals.g_nCStart = (CommandLine.Parse args g).g_nCStart) ∧
    ∃ r consumer producer n m,
      main args = some r ∧
      r.globals = (parse_arguments args Globals.atStart).globals ∧
      r.sim.applications = [consumer, producer] ∧
      consumer.typeName = "PSyncConsumerApp" ∧
      producer.typeName = "PSyncProducerApp" ∧
      consumer.attributes.lookup "NumSubscribeMessage" = some (.uinteger n) ∧
      producer.attributes.lookup "TotalDataStream" = some (.uinteger m) ∧
      n = r.globals.g_numberOfSubscribeMessages ∧
      m = r.globals.g_numberOfDataStream ∧
      n ≤ m := by
  constructor
  · refine ⟨normalize_le _, ?_, ?_, ?_, ?_, ?_⟩ <;>
      simp only [parse_arguments, normalize] <;> split <;> rfl
  · exact ⟨_, _, _, _, _, main_eq args, rfl,
      builtFrom_applications _ (parse_arguments_inRange args), rfl, rfl, rfl, rfl, rfl, rfl,
      normalize_le _⟩

/-- C3: for every duration `d` in the range of a 32-bit `int` (negative values
and the least one included), the run whose `--duration` is `d` gives the
consumer the stop time `d - 1` and the producer the stop time `d - 5`, as
rational numbers; and in every run the two stop times are the parsed duration
minus `1` and minus `5`. -/
theorem C3_stop_times_exact (d : ℤ) (hlo : -2 ^ 31 ≤ d) (hhi : d < 2 ^ 31)
    (args : List Override) :
    (∃ r c p,
      main (args ++ [.duration d]) = some r ∧
      r.globals.g_simulationTime = d ∧
      r.sim.applications = [c, p] ∧
      c.typeName = "PSyncConsumerApp" ∧ c.stopTime = some (Seconds ((d : ℚ) - 1)) ∧
      p.typeName = "PSyncProducerApp" ∧ p.stopTime = some (Seconds ((d : ℚ) - 5))) ∧
    (∃ r c p,
      main args = some r ∧
      r.sim.applications = [c, p] ∧
      c.typeName = "PSyncConsumerApp" ∧
      c.stopTime = some (Seconds ((r.globals.g_simulationTime : ℚ) - 1)) ∧
      p.typeName = "PSyncProducerApp" ∧
      p.stopTime = some (Seconds ((r.globals.g_simulationTime : ℚ) - 5))) := by
  have hd : (parse_arguments (args ++ [.duration d]) Globals.atStart).globals.g_simulationTime
      = d := by
    simp only [parse_arguments, normalize_simulationTime, Parse_append]
    simp only [CommandLine.Parse, List.foldl, Override.store]
    exact toInt32_of_range d hlo hhi
  constructor
  · refine ⟨_, _, _, main_eq _, hd,
      builtFrom_applications _ (parse_arguments_inRange _), rfl, ?_, rfl, ?_⟩
    · simp only [hd, Seconds]
    · simp only [hd, Seconds]
  · exact ⟨_, _, _, main_eq args, builtFrom_applications _ (parse_arguments_inRange args),
      rfl, rfl, rfl, rfl⟩

/-- C3, at the least `int` and at the default: stop times `-2147483649` and
`-2147483653` for `--duration -2147483648`, and `299` and `295` for `300`. -/
theorem C3_stop_times_exact_witness :
    (∃ r c p,
      main ([] ++ [.duration (-2147483648)]) = some r ∧
      r.globals.g_simulationTime = -2147483648 ∧
      r.sim.applications = [c, p] ∧
      c.typeName = "PSyncConsumerApp" ∧ c.stopTime = some (-2147483649) ∧
      p.typeName = "PSyncProducerApp" ∧ p.stopTime = some (-2147483653)) ∧
    (∃ r c p,
      main [] = some r ∧
      r.globals.g_simulationTime = 300 ∧
      r.sim.applications = [c, p] ∧
      c.typeName = "PSyncConsumerApp" ∧ c.stopTime = some 299 ∧
      p.typeName = "PSyncProducerApp" ∧ p.stopTime = some 295) := by
  constructor
  · obtain ⟨r, c, p, h1, h2, h3, h4, h5, h6, h7⟩ :=
      (C3_stop_times_exact (-2147483648) (by decide) (by decide) []).1
    refine ⟨r, c, p, h1, h2, h3, h4, ?_, h6, ?_⟩
    · rw [h5, Seconds]; norm_num
    · rw [h7, Seconds]; norm_num
  · obtain ⟨r, c, p, h1, h3, h4, h5, h6, h7⟩ :=
      (C3_stop_times_exact 300 (by decide) (by decide) []).2
    have hr : r.globals.g_simulationTime = 300 := by
      rw [main_eq] at h1
      cases h1
      rfl
    refine ⟨r, c, p, h1, hr, h3, h4, ?_, h6, ?_⟩
    · rw [h5, Seconds, hr]; norm_num
    · rw [h7, Seconds, hr]; norm_num

/-- C4: in every run the producer stop time (duration - 5) is strictly before
the consumer stop time (duration - 1), which is strictly before the global
stop time; the global stop time is the duration, and it is the only global
stop event registered. -/
theorem C4_stop_events_ordered (args : List Override) :
    ∃ r c p tp tc tg,
      main args = some r ∧
      r.sim.applications = [c, p] ∧
      c.typeName = "PSyncConsumerApp" ∧ p.typeName = "PSyncProducerApp" ∧
      p.stopTime = some tp ∧ c.stopTime = some tc ∧ r.sim.stopEvents = [tg] ∧
      tp = (r.globals.g_simulationTime : ℚ) - 5 ∧
      tc = (r.globals.g_simulationTime : ℚ) - 1 ∧
      tg = (r.globals.g_simulationTime : ℚ) ∧
      tp < tc ∧ tc < tg := by
  refine ⟨_, _, _, _, _, _, main_eq args,
    builtFrom_applications _ (parse_arguments_inRange args), rfl, rfl, rfl, rfl,
    builtFrom_stopEvents _ (parse_arguments_inRange args), rfl, rfl, rfl, ?_, ?_⟩
  · linarith
  · linarith

/-- C5: with no override the globals after `parse_arguments`, which are the
ones the rest of `main` reads, are `100`, `2 ^ 32 - 1`, `200`, `300`, `5` and
`8`; the count of subscribe messages is `100` before the normalisation as
well, and `2 ^ 32 - 1 = 4294967295` fits the 64-bit variable. -/
theorem C5_default_configuration :
    (parse_arguments [] Globals.atStart).globals =
      { g_numberOfSubscribeMessages := 100
        g_numberOfPublishMessages := 2 ^ 32 - 1
        g_numberOfDataStream := 200
        g_simulationTime := 300
        g_nPStart := 5
        g_nCStart := 8 } ∧
    (CommandLine.Parse [] Globals.atStart).g_numberOfSubscribeMessages = 100 ∧
    (parse_arguments [] Globals.atStart).globals.g_numberOfPublishMessages = 4294967295 ∧
    (parse_arguments [] Globals.atStart).globals.g_numberOfPublishMessages < 2 ^ 64 ∧
    ∃ r, main [] = some r ∧ r.globals = (parse_arguments [] Globals.atStart).globals :=
  ⟨by decide, by decide, by decide, by decide, _, main_eq [], rfl⟩

/-- C6: every run of `main` installs exactly two applications, in this order:
`PSyncConsumerApp` on node 0 with prefix `/prefix` and `NumSubscribeMessage`
the clamped count, started at `g_nCStart`; and `PSyncProducerApp` on node 2,
the last of the three nodes, with the same prefix, `UserPrefix` the literal
`topic`, `MaxPublishMessage` and `TotalDataStream` from the globals, started at
`g_nPStart`. -/
theorem C6_two_application_bindings (args : List Override) :
    ∃ r c p,
      main args = some r ∧
      r.globals = (parse_arguments args Globals.atStart).globals ∧
      r.sim.nodes = 3 ∧
      r.sim.applications = [c, p] ∧
      c.typeName = "PSyncConsumerApp" ∧
      c.node = 0 ∧
      c.attributes =
        [ ("Prefix", .string "/prefix"),
          ("NumSubscribeMessage", .uinteger r.globals.g_numberOfSubscribeMessages) ] ∧
      c.startTime = some (Seconds r.globals.g_nCStart) ∧
      p.typeName = "PSyncProducerApp" ∧
      p.node = 2 ∧
      p.attributes =
        [ ("Prefix", .string "/prefix"),
          ("UserPrefix", .string "topic"),
          ("MaxPublishMessage", .uinteger r.globals.g_numberOfPublishMessages),
          ("TotalDataStream", .uinteger r.globals.g_numberOfDataStream) ] ∧
      p.startTime = some (Seconds r.globals.g_nPStart) :=
  ⟨_, _, _, main_eq args, rfl, rfl, builtFrom_applications _ (parse_arguments_inRange args),
    rfl, rfl, rfl, rfl, rfl, rfl, rfl, rfl⟩

/-- C7: every run of `main`, whatever the overrides, leaves 3 nodes and 2
point-to-point links, between node 0 and node 1 and between node 1 and node 2. -/
theorem C7_topology_fixed (args : List Override) :
    ∃ r,
      main args = some r ∧
      r.sim.nodes = 3 ∧
      r.sim.links.length = 2 ∧
      r.sim.links = [(0, 1), (1, 2)] :=
  ⟨_, main_eq args, rfl, rfl, rfl⟩

/-- C8, evaluated without overrides: the consumer start offset is `8` and the
producer start offset is `5`, yet the summary line labelled `--c_start` shows
`5` and the line labelled `--p_start` shows `8`; the `--sm` line shows the
stored count. -/
theorem C8_summary_swaps_start_offsets :
    (parse_arguments [] Globals.atStart).globals.g_nCStart = 8 ∧
    (parse_arguments [] Globals.atStart).globals.g_nPStart = 5 ∧
    (parse_arguments [] Globals.atStart).log.filter (fun l => l.text = "--c_start       : ")
      = [⟨"--c_start       : ", some (.double 5)⟩] ∧
    (parse_arguments [] Globals.atStart).log.filter (fun l => l.text = "--p_start       : ")
      = [⟨"--p_start       : ", some (.double 8)⟩] ∧
    (parse_arguments [] Globals.atStart).log.filter (fun l => l.text = "--sm            : ")
      = [⟨"--sm            : ", some (.uint 100)⟩] := by
  refine ⟨by decide, by decide, by decide, by decide, by decide⟩

/-- C9: `parse_arguments` returns `0` on every input; every run of `main`
returns `0`, and calls `Simulator::Run` exactly once, at a moment when the
three nodes, the links 0-1 and 1-2, the stack, the consumer on node 0 and the
producer on node 2 with their start and stop times, and the one stop event at
the duration are all in place and nothing is destroyed yet; `Destroy` follows.
Were the parser called on line 97 to return a nonzero status, `main` would
return that status with nothing built and the engine never started. -/
theorem C9_exit_status (args : List Override) :
    (∀ g, (parse_arguments args g).retval = 0) ∧
    (∃ r s c p,
      main args = some r ∧ r.retval = 0 ∧
      r.globals = (parse_arguments args Globals.atStart).globals ∧
      r.sim.runs = [s] ∧
      s.nodes = 3 ∧ s.links = [(0, 1), (1, 2)] ∧
      s.stackNodes = [(0, true), (1, true), (2, true)] ∧
      s.applications = [c, p] ∧
      c.typeName = "PSyncConsumerApp" ∧ c.node = 0 ∧
      c.startTime = some (Seconds r.globals.g_nCStart) ∧
      c.stopTime = some (Seconds ((r.globals.g_simulationTime : ℚ) - 1)) ∧
      p.typeName = "PSyncProducerApp" ∧ p.node = 2 ∧
      p.startTime = some (Seconds r.globals.g_nPStart) ∧
      p.stopTime = some (Seconds ((r.globals.g_simulationTime : ℚ) - 5)) ∧
      s.stopEvents = [Seconds (r.globals.g_simulationTime : ℚ)] ∧
      s.destroyed = false ∧
      r.sim.nodes = s.nodes ∧ r.sim.links = s.links ∧
      r.sim.applications = s.applications ∧ r.sim.stopEvents = s.stopEvents ∧
      r.sim.destroyed = true) ∧
    (∀ parse : List Override → Globals → ParseResult,
      (parse args Globals.atStart).retval ≠ 0 →
      ∃ r,
        mainWith parse args = some r ∧ r.retval = (parse args Globals.atStart).retval ∧
        r.sim.nodes = 0 ∧ r.sim.links = [] ∧ r.sim.stackNodes = [] ∧
        r.sim.strategies = [] ∧ r.sim.applications = [] ∧
        r.sim.stopEvents = [] ∧ r.sim.runs = [] ∧ r.sim.destroyed = false) := by
  refine ⟨fun _ => rfl, ?_, ?_⟩
  · refine ⟨_, _, _, _, main_eq args, rfl, rfl, builtFrom_runs _, rfl, rfl, rfl,
      builtFrom_applications _ (parse_arguments_inRange args), rfl, rfl, rfl, rfl, rfl, rfl,
      rfl, rfl, builtFrom_stopEvents _ (parse_arguments_inRange args), rfl, rfl, rfl, rfl,
      rfl, rfl⟩
  · intro parse h
    simp only [mainWith, if_pos h]
    exact ⟨_, rfl, rfl, rfl, rfl, rfl, rfl, rfl, rfl, rfl, rfl⟩

/-- C9, for a parser that returns `7`: `main` returns `7`, builds nothing and
never starts the engine. -/
theorem C9_exit_status_witness :
    ∃ r,
      mainWith (fun _ g => ⟨7, g, []⟩) [] = some r ∧ r.retval = 7 ∧
      r.sim.nodes = 0 ∧ r.sim.links = [] ∧ r.sim.stackNodes = [] ∧
      r.sim.strategies = [] ∧ r.sim.applications = [] ∧
      r.sim.stopEvents = [] ∧ r.sim.runs = [] ∧ r.sim.destroyed = false :=
  (C9_exit_status []).2.2 (fun _ g => ⟨7, g, []⟩) (by decide)

/-- C10 fails as stated: with `--duration 5 --p_start 0` the duration is
below 6, the producer stop time is `0` and its start time is `0`, so the stop
time is neither negative nor strictly before the start time. -/
theorem C10_counterexample :
    ∃ r c p,
      main [.duration 5, .p_start 0] = some r ∧
      r.globals.g_simulationTime = 5 ∧ r.globals.g_simulationTime < 6 ∧
      r.sim.applications = [c, p] ∧
      p.typeName = "PSyncProducerApp" ∧
      p.stopTime = some 0 ∧ p.startTime = some 0 ∧
      ¬ ((0 : ℚ) < 0 ∨ (0 : ℚ) < 0) := by
  have ht : (parse_arguments [.duration 5, .p_start 0] Globals.atStart).globals.g_simulationTime
      = 5 := by decide
  have hp : (parse_arguments [.duration 5, .p_start 0] Globals.atStart).globals.g_nPStart
      = 0 := by
    simp [parse_arguments, normalize_nPStart, CommandLine.Parse, Override.store, roundBinary64]
  refine ⟨_, _, _, main_eq _, ht, by rw [ht]; decide,
    builtFrom_applications _ (parse_arguments_inRange _), rfl, ?_, ?_, by simp⟩
  · simp only [ht]
    norm_num
  · simp only [hp]

/-- C10, amended: in every run whose duration is below 6 and, in addition,
either below 5 or paired with a positive producer start offset, the producer
is given the stop time `duration - 5` and the start time `g_nPStart`
unchanged, and that stop time is negative or strictly before the start time. -/
theorem C10_producer_stop_before_start (args : List Override)
    (h6 : (parse_arguments args Globals.atStart).globals.g_simulationTime < 6)
    (hs : (parse_arguments args Globals.atStart).globals.g_simulationTime < 5 ∨
      0 < (parse_arguments args Globals.atStart).globals.g_nPStart) :
    ∃ r c p,
      main args = some r ∧
      r.globals = (parse_arguments args Globals.atStart).globals ∧
      r.sim.applications = [c, p] ∧
      p.typeName = "PSyncProducerApp" ∧
      p.stopTime = some (Seconds ((r.globals.g_simulationTime : ℚ) - 5)) ∧
      p.startTime = some (Seconds r.globals.g_nPStart) ∧
      ((r.globals.g_simulationTime : ℚ) - 5 < 0 ∨
        (r.globals.g_simulationTime : ℚ) - 5 < r.globals.g_nPStart) := by
  refine ⟨_, _, _, main_eq args, rfl,
    builtFrom_applications _ (parse_arguments_inRange args), rfl, rfl, rfl, ?_⟩
  have h6q : ((parse_arguments args Globals.atStart).globals.g_simulationTime : ℚ) ≤ 5 := by
    exact_mod_cast Int.lt_add_one_iff.mp h6
  rcases hs with h5 | hpos
  · left
    have h5q : ((parse_arguments args Globals.atStart).globals.g_simulationTime : ℚ) < 5 := by
      exact_mod_cast h5
    simp only []
    linarith
  · right
    simp only []
    linarith

/-- C10, amended, at `--duration 4` with the default start offset: the
producer stop time is `-1` and its start time is `5`. -/
theorem C10_producer_stop_before_start_witness :
    ∃ r c p,
      main [.duration 4] = some r ∧
      r.globals.g_simulationTime = 4 ∧
      r.sim.applications = [c, p] ∧
      p.typeName = "PSyncProducerApp" ∧
      p.stopTime = some (-1) ∧ p.startTime = some 5 ∧
      ((-1 : ℚ) < 0 ∨ (-1 : ℚ) < 5) := by
  obtain ⟨r, c, p, h1, h2, h3, h4, h5, h6, _⟩ :=
    C10_producer_stop_before_start [.duration 4] (by decide) (Or.inl (by decide))
  have ht : r.globals.g_simulationTime = 4 := by rw [h2]; decide
  have hp : r.globals.g_nPStart = 5 := by rw [h2]; decide
  refine ⟨r, c, p, h1, ht, h3, h4, ?_, ?_, Or.inl (by norm_num)⟩
  · rw [h5, Seconds, ht]
    norm_num
  · rw [h6, Seconds, hp]

end PSyncSimple
